import Mathlib

/-!
Shallow embedding of the sleep-timer engine in `src/legacy/src/timer.ts`
(the `SleepTimer` class), together with proofs about its state machine.

Modelling decisions:
* JS numbers used as integer second counters are modelled as `ℤ`;
  `startedAt : number | null` becomes `Option ℤ` (epoch milliseconds), and
  the `minutes` argument of `start` is a rational, with `Math.floor` as
  `Int.floor` (both floor towards negative infinity).
* The platform scheduler is modelled explicitly: `sched` is the list of
  live interval-source ids, `setInterval` appends a fresh id and
  `clearInterval` removes one — so "exactly one active tick source" is a
  statement about `sched`.
* The registered `onExpire` callbacks are zero-argument side-effecting JS
  functions whose only behaviour visible to the timer is whether they
  throw; each is modelled by a `Bool` (`true` = the callback throws), and
  running one is recorded as a trace event.
* External effects (callback invocations, `pauseMedia`, the 1-second
  settle delay, `suspendSystem`) are recorded as an ordered event trace;
  the `console.log` calls are not modelled.
-/

namespace Eepy

/-- Mirrors the `TimerState` interface (timer.ts lines 3-8). -/
structure TimerState where
  isRunning : Bool
  remainingSeconds : ℤ
  totalSeconds : ℤ
  startedAt : Option ℤ
deriving DecidableEq

/-- Observable events emitted by the engine.  `setIdle` marks the single
state write of `expire` (lines 98-99); `callbackOk i` / `callbackErr i`
record the i-th registered callback returning normally / throwing (lines
102-108); `pauseMedia`, `settleDelay` and `suspendSystem` record lines
111, 115 and 118. -/
inductive Event where
  | setIdle
  | callbackOk (i : ℕ)
  | callbackErr (i : ℕ)
  | pauseMedia
  | settleDelay
  | suspendSystem
deriving DecidableEq

/-- Function `clearInterval(id)`: the scheduler drops the interval source `id`. -/
def clearInterval (sched : List ℕ) (id : ℕ) : List ℕ :=
  sched.filter (fun x => x ≠ id)

/-- The `SleepTimer` class (timer.ts lines 12-121): its `state` and
`intervalId` fields, the `onExpireCallbacks` registry, plus the explicit
scheduler model (`sched` = live interval ids, `nextId` = fresh-id
supply). -/
structure SleepTimer where
  state : TimerState
  intervalId : Option ℕ
  onExpireCallbacks : List Bool
  sched : List ℕ
  nextId : ℕ
deriving DecidableEq

/-- The field initialisers of `SleepTimer` (timer.ts lines 13-21): idle
state, no interval, no callbacks. -/
def initialTimer : SleepTimer :=
  { state := { isRunning := false, remainingSeconds := 0, totalSeconds := 0, startedAt := none }
    intervalId := none
    onExpireCallbacks := []
    sched := []
    nextId := 0 }

/-- Method `getState()` (timer.ts lines 69-71): returns a copy of the state. -/
def SleepTimer.getState (t : SleepTimer) : TimerState := t.state

/-- Method `start(minutes)` (timer.ts lines 27-44): clear any existing interval,
set a fresh running state with `totalSeconds = Math.floor(minutes * 60)`,
and install a new interval source. -/
def SleepTimer.start (t : SleepTimer) (minutes : ℚ) (now : ℤ) : SleepTimer :=
  let t1 := match t.intervalId with
    | some id => { t with sched := clearInterval t.sched id }
    | none => t
  let totalSeconds : ℤ := ⌊minutes * 60⌋
  let t2 := { t1 with state :=
    { isRunning := true
      remainingSeconds := totalSeconds
      totalSeconds := totalSeconds
      startedAt := some now } }
  { t2 with intervalId := some t2.nextId
            sched := t2.sched ++ [t2.nextId]
            nextId := t2.nextId + 1 }

/-- Method `cancel()` (timer.ts lines 49-64): clear the interval (if any) and
reset the state to the idle canonical form. -/
def SleepTimer.cancel (t : SleepTimer) : SleepTimer :=
  let t1 := match t.intervalId with
    | some id => { t with sched := clearInterval t.sched id, intervalId := none }
    | none => t
  { t1 with state :=
    { isRunning := false, remainingSeconds := 0, totalSeconds := 0, startedAt := none } }

/-- Method `onExpire(callback)` (timer.ts lines 76-78): append to the registry. -/
def SleepTimer.onExpire (t : SleepTimer) (cb : Bool) : SleepTimer :=
  { t with onExpireCallbacks := t.onExpireCallbacks ++ [cb] }

/-- The `for (const callback of this.onExpireCallbacks) { try ... catch }`
loop of `expire` (timer.ts lines 102-108), as the event trace it emits:
the i-th callback yields `callbackErr i` when it throws (caught and
logged) and `callbackOk i` otherwise; the loop never stops early. -/
def callbackTrace : ℕ → List Bool → List Event
  | _, [] => []
  | i, throws :: rest =>
      (if throws then Event.callbackErr i else Event.callbackOk i) :: callbackTrace (i + 1) rest

/-- Pipeline step for the callback loop (timer.ts lines 102-108): emits
the callback events and does not touch the engine. -/
def runCallbacksStep (t : SleepTimer) : SleepTimer × List Event :=
  (t, callbackTrace 0 t.onExpireCallbacks)

/-- Pipeline step for `await pauseMedia()` (timer.ts line 111): one
external call, no engine mutation. -/
def pauseMediaStep (t : SleepTimer) : SleepTimer × List Event :=
  (t, [Event.pauseMedia])

/-- Pipeline step for the 1-second settle wait (timer.ts line 115). -/
def settleDelayStep (t : SleepTimer) : SleepTimer × List Event :=
  (t, [Event.settleDelay])

/-- Pipeline step for `await suspendSystem()` (timer.ts line 118). -/
def suspendSystemStep (t : SleepTimer) : SleepTimer × List Event :=
  (t, [Event.suspendSystem])

/-- The ordered pipeline that `expire` runs after its single state write:
callbacks, then pause, then settle delay, then suspend (timer.ts lines
101-119). -/
def pipelineSteps : List (SleepTimer → SleepTimer × List Event) :=
  [runCallbacksStep, pauseMediaStep, settleDelayStep, suspendSystemStep]

/-- Run a list of pipeline steps in order, threading the engine and
concatenating the emitted events. -/
def runSteps : SleepTimer → List (SleepTimer → SleepTimer × List Event) → SleepTimer × List Event
  | t, [] => (t, [])
  | t, step :: rest =>
      let (t1, ev1) := step t
      let (t2, ev2) := runSteps t1 rest
      (t2, ev1 ++ ev2)

/-- Method `expire()` (timer.ts lines 90-120): clear the interval, write
`isRunning = false` and `remainingSeconds = 0` (the `setIdle` event marks
this write), then run the pipeline steps in order. -/
def SleepTimer.expire (t : SleepTimer) : SleepTimer × List Event :=
  let t1 := match t.intervalId with
    | some id => { t with sched := clearInterval t.sched id, intervalId := none }
    | none => t
  let t2 := { t1 with state :=
    { t1.state with isRunning := false, remainingSeconds := 0 } }
  let (t3, tr) := runSteps t2 pipelineSteps
  (t3, Event.setIdle :: tr)

/-- Method `tick()` (timer.ts lines 80-88): a no-op unless running; otherwise
decrement `remainingSeconds` and call `expire` when it has reached `≤ 0`. -/
def SleepTimer.tick (t : SleepTimer) : SleepTimer × List Event :=
  if t.state.isRunning = false then (t, [])
  else
    let t1 := { t with state :=
      { t.state with remainingSeconds := t.state.remainingSeconds - 1 } }
    if t1.state.remainingSeconds ≤ 0 then t1.expire else (t1, [])

/-- The operations a client (or the scheduler) can apply to the singleton
timer: `start`, `cancel`, a scheduler tick, or registering a callback. -/
inductive Op where
  | start (minutes : ℚ) (now : ℤ)
  | cancel
  | tick
  | onExpire (throws : Bool)

/-- Apply one operation; only `tick` (via `expire`) can emit events. -/
def applyOp (t : SleepTimer) : Op → SleepTimer × List Event
  | Op.start m now => (t.start m now, [])
  | Op.cancel => (t.cancel, [])
  | Op.tick => t.tick
  | Op.onExpire b => (t.onExpire b, [])

/-- Run a sequence of operations from a given engine, concatenating the
event traces. -/
def run : SleepTimer → List Op → SleepTimer × List Event
  | t, [] => (t, [])
  | t, op :: rest =>
      let (t1, ev1) := applyOp t op
      let (t2, ev2) := run t1 rest
      (t2, ev1 ++ ev2)

/-- An operation whose `start` argument (if any) is a positive number of
minutes, as §4.1 of the spec requires of callers. -/
def PosMinutes : Op → Prop
  | Op.start m _ => 0 < m
  | _ => True

instance instDecidablePosMinutes : (op : Op) → Decidable (PosMinutes op)
  | Op.start m _ => inferInstanceAs (Decidable (0 < m))
  | Op.cancel => inferInstanceAs (Decidable True)
  | Op.tick => inferInstanceAs (Decidable True)
  | Op.onExpire _ => inferInstanceAs (Decidable True)

/-- The state invariant that actually holds on all reachable states (for
positive-minute starts): `remainingSeconds` stays between `0` and
`totalSeconds`, and a non-running state has `remainingSeconds = 0`. -/
def Invariant (s : TimerState) : Prop :=
  0 ≤ s.remainingSeconds ∧ s.remainingSeconds ≤ s.totalSeconds ∧
    (s.isRunning = false → s.remainingSeconds = 0)

instance instDecidableInvariant (s : TimerState) : Decidable (Invariant s) := by
  unfold Invariant; infer_instance

/-! ### Evaluation lemmas for the individual operations -/

theorem start_state (t : SleepTimer) (m : ℚ) (now : ℤ) :
    (t.start m now).state =
      { isRunning := true, remainingSeconds := ⌊m * 60⌋, totalSeconds := ⌊m * 60⌋,
        startedAt := some now } := rfl

theorem start_eq_none (t : SleepTimer) (h : t.intervalId = none) (m : ℚ) (now : ℤ) :
    t.start m now =
      { state := { isRunning := true, remainingSeconds := ⌊m * 60⌋, totalSeconds := ⌊m * 60⌋,
                   startedAt := some now }
        intervalId := some t.nextId
        onExpireCallbacks := t.onExpireCallbacks
        sched := t.sched ++ [t.nextId]
        nextId := t.nextId + 1 } := by
  simp [SleepTimer.start, h]

theorem start_eq_some (t : SleepTimer) (id : ℕ) (h : t.intervalId = some id) (m : ℚ) (now : ℤ) :
    t.start m now =
      { state := { isRunning := true, remainingSeconds := ⌊m * 60⌋, totalSeconds := ⌊m * 60⌋,
                   startedAt := some now }
        intervalId := some t.nextId
        onExpireCallbacks := t.onExpireCallbacks
        sched := clearInterval t.sched id ++ [t.nextId]
        nextId := t.nextId + 1 } := by
  simp [SleepTimer.start, h]

theorem cancel_state (t : SleepTimer) :
    t.cancel.state =
      { isRunning := false, remainingSeconds := 0, totalSeconds := 0, startedAt := none } := rfl

theorem cancel_intervalId (t : SleepTimer) : t.cancel.intervalId = none := by
  cases h : t.intervalId <;> simp [SleepTimer.cancel, h]

theorem onExpire_state (t : SleepTimer) (cb : Bool) : (t.onExpire cb).state = t.state := rfl

/-- The expiry pipeline steps thread the engine through unchanged: the
loop of timer.ts lines 102-108 and the calls at lines 111-118 read
`onExpireCallbacks` but never assign to `this.state` (or any field). -/
theorem runSteps_pipeline_fst (u : SleepTimer) : (runSteps u pipelineSteps).1 = u := rfl

theorem runSteps_pipeline_snd (u : SleepTimer) :
    (runSteps u pipelineSteps).2 =
      callbackTrace 0 u.onExpireCallbacks
        ++ [Event.pauseMedia, Event.settleDelay, Event.suspendSystem] := by
  simp [runSteps, pipelineSteps, runCallbacksStep, pauseMediaStep, settleDelayStep,
    suspendSystemStep]

theorem expire_fst_state (t : SleepTimer) :
    (t.expire).1.state =
      { isRunning := false, remainingSeconds := 0, totalSeconds := t.state.totalSeconds,
        startedAt := t.state.startedAt } := by
  cases h : t.intervalId <;>
    simp [SleepTimer.expire, h, runSteps_pipeline_fst]

theorem expire_fst_callbacks (t : SleepTimer) :
    (t.expire).1.onExpireCallbacks = t.onExpireCallbacks := by
  cases h : t.intervalId <;> simp [SleepTimer.expire, h, runSteps_pipeline_fst]

theorem expire_fst_intervalId (t : SleepTimer) : (t.expire).1.intervalId = none := by
  cases h : t.intervalId <;> simp [SleepTimer.expire, h, runSteps_pipeline_fst]

theorem expire_snd (t : SleepTimer) :
    (t.expire).2 =
      Event.setIdle :: callbackTrace 0 t.onExpireCallbacks
        ++ [Event.pauseMedia, Event.settleDelay, Event.suspendSystem] := by
  cases h : t.intervalId <;>
    simp [SleepTimer.expire, h, runSteps_pipeline_fst, runSteps_pipeline_snd]

theorem tick_not_running (t : SleepTimer) (h : t.state.isRunning = false) :
    t.tick = (t, []) := by
  simp [SleepTimer.tick, h]

theorem tick_no_expiry (t : SleepTimer) (h : t.state.isRunning = true)
    (h2 : 1 < t.state.remainingSeconds) :
    t.tick =
      ({ t with state := { t.state with remainingSeconds := t.state.remainingSeconds - 1 } },
        []) := by
  simp only [SleepTimer.tick, h]
  rw [if_neg (by simp), if_neg (by omega)]

theorem tick_expiry (t : SleepTimer) (h : t.state.isRunning = true)
    (h2 : t.state.remainingSeconds ≤ 1) :
    t.tick =
      ({ t with state := { t.state with remainingSeconds := t.state.remainingSeconds - 1 } }).expire := by
  simp only [SleepTimer.tick, h]
  rw [if_neg (by simp), if_pos (by omega)]

theorem tick_expiry_state (t : SleepTimer) (h : t.state.isRunning = true)
    (h2 : t.state.remainingSeconds ≤ 1) :
    (t.tick).1.state =
      { isRunning := false, remainingSeconds := 0, totalSeconds := t.state.totalSeconds,
        startedAt := t.state.startedAt } := by
  rw [tick_expiry t h h2, expire_fst_state]

theorem tick_expiry_trace (t : SleepTimer) (h : t.state.isRunning = true)
    (h2 : t.state.remainingSeconds ≤ 1) :
    (t.tick).2 =
      Event.setIdle :: callbackTrace 0 t.onExpireCallbacks
        ++ [Event.pauseMedia, Event.settleDelay, Event.suspendSystem] := by
  rw [tick_expiry t h h2, expire_snd]

/-! ### `run` and `callbackTrace` lemmas -/

theorem run_nil (t : SleepTimer) : run t [] = (t, []) := rfl

theorem run_cons (t : SleepTimer) (op : Op) (rest : List Op) :
    run t (op :: rest) =
      ((run (applyOp t op).1 rest).1, (applyOp t op).2 ++ (run (applyOp t op).1 rest).2) := by
  simp [run]

theorem callbackTrace_length (i : ℕ) (cbs : List Bool) :
    (callbackTrace i cbs).length = cbs.length := by
  induction cbs generalizing i with
  | nil => rfl
  | cons b rest ih => simp [callbackTrace, ih]

theorem callbackTrace_mem (cbs : List Bool) (j : ℕ) :
    ∀ i (hi : i < cbs.length),
      (if cbs.get ⟨i, hi⟩ = true then Event.callbackErr (j + i) else Event.callbackOk (j + i))
        ∈ callbackTrace j cbs := by
  induction cbs generalizing j with
  | nil => intro i hi; simp at hi
  | cons b rest ih =>
      intro i hi
      cases i with
      | zero => cases b <;> simp [callbackTrace]
      | succ k =>
          have hk : k < rest.length := by simpa using hi
          have h2 := ih (j + 1) k hk
          have harith : j + (k + 1) = j + 1 + k := by omega
          simp only [callbackTrace, List.get_cons_succ, harith]
          exact List.mem_cons_of_mem _ h2

theorem callbackTrace_count_pauseMedia (i : ℕ) (cbs : List Bool) :
    (callbackTrace i cbs).count Event.pauseMedia = 0 := by
  induction cbs generalizing i with
  | nil => rfl
  | cons b rest ih => cases b <;> simp [callbackTrace, List.count_cons, ih]

theorem callbackTrace_count_suspendSystem (i : ℕ) (cbs : List Bool) :
    (callbackTrace i cbs).count Event.suspendSystem = 0 := by
  induction cbs generalizing i with
  | nil => rfl
  | cons b rest ih => cases b <;> simp [callbackTrace, List.count_cons, ih]

/-- Ticks delivered to a non-running engine never change it or emit
events, however many arrive. -/
theorem run_ticks_of_not_running (t : SleepTimer) (h : t.state.isRunning = false) :
    ∀ n : ℕ, run t (List.replicate n Op.tick) = (t, []) := by
  intro n
  induction n with
  | zero => rfl
  | succ k ih =>
      rw [List.replicate_succ, run_cons]
      simp only [applyOp, tick_not_running t h]
      simp [ih]

/-- A sequence of operations containing no `start` and no `cancel`,
applied to a non-running engine, leaves its `TimerState` untouched. -/
theorem run_no_start_cancel (ops : List Op)
    (hops : ∀ op ∈ ops, op = Op.tick ∨ ∃ b, op = Op.onExpire b) :
    ∀ t : SleepTimer, t.state.isRunning = false → (run t ops).1.state = t.state := by
  induction ops with
  | nil => intro t _; rfl
  | cons op rest ih =>
      intro t ht
      have hrest : ∀ o ∈ rest, o = Op.tick ∨ ∃ b, o = Op.onExpire b :=
        fun o ho => hops o (List.mem_cons_of_mem _ ho)
      rcases hops op (List.mem_cons_self op rest) with hTick | ⟨b, hCb⟩
      · subst hTick
        rw [run_cons]
        simp only [applyOp, tick_not_running t ht]
        exact ih hrest t ht
      · subst hCb
        rw [run_cons]
        simp only [applyOp]
        rw [ih hrest (t.onExpire b) (by rw [onExpire_state]; exact ht), onExpire_state]

/-- One operation with a positive-minute `start` argument preserves the
reachable-state invariant. -/
theorem applyOp_invariant (t : SleepTimer) (op : Op) (hop : PosMinutes op)
    (h : Invariant t.state) : Invariant (applyOp t op).1.state := by
  obtain ⟨h0, h1, h2⟩ := h
  cases op with
  | start m now =>
      have hm : 0 < m := hop
      have h60 : (0 : ℤ) ≤ ⌊m * 60⌋ :=
        Int.le_floor.mpr (by push_cast; exact le_of_lt (mul_pos hm (by norm_num)))
      simp only [applyOp, start_state, Invariant]
      exact ⟨h60, le_refl _, by simp⟩
  | cancel =>
      simp [applyOp, cancel_state, Invariant]
  | tick =>
      simp only [applyOp]
      by_cases hr : t.state.isRunning = true
      · by_cases hle : t.state.remainingSeconds ≤ 1
        · rw [tick_expiry_state t hr hle]
          refine ⟨le_refl 0, ?_, fun _ => rfl⟩
          show (0 : ℤ) ≤ t.state.totalSeconds
          omega
        · push_neg at hle
          rw [tick_no_expiry t hr hle]
          refine ⟨?_, ?_, ?_⟩
          · show (0 : ℤ) ≤ t.state.remainingSeconds - 1
            omega
          · show t.state.remainingSeconds - 1 ≤ t.state.totalSeconds
            omega
          · intro hfalse
            have hcontra : t.state.isRunning = false := hfalse
            rw [hr] at hcontra
            simp at hcontra
      · have hf : t.state.isRunning = false := by simpa using hr
        rw [tick_not_running t hf]
        exact ⟨h0, h1, h2⟩
  | onExpire b =>
      simpa [applyOp, onExpire_state, Invariant] using ⟨h0, h1, h2⟩

/-- The invariant holds after any sequence of positive-minute operations. -/
theorem run_invariant (ops : List Op) :
    ∀ t : SleepTimer, (∀ op ∈ ops, PosMinutes op) → Invariant t.state →
      Invariant (run t ops).1.state := by
  induction ops with
  | nil => intro t _ h; exact h
  | cons op rest ih =>
      intro t hpos h
      rw [run_cons]
      exact ih (applyOp t op).1 (fun o ho => hpos o (List.mem_cons_of_mem _ ho))
        (applyOp_invariant t op (hpos op (List.mem_cons_self op rest)) h)

/-- Claim C1, counterexample: from the initial idle state, `start(1/60)`
(one second) followed by a single tick expires naturally and leaves a
reachable state with `isRunning = false` but `totalSeconds = 1 ≠ 0` and
`startedAt` still present — `expire` (timer.ts lines 98-99) resets only
`isRunning` and `remainingSeconds`, so the claimed idle canonical form
does not hold for all reachable states. -/
theorem expiry_violates_idle_canonical_form :
    (run initialTimer [Op.start (1/60) 0, Op.tick]).1.state.isRunning = false
    ∧ (run initialTimer [Op.start (1/60) 0, Op.tick]).1.state.totalSeconds = 1
    ∧ (run initialTimer [Op.start (1/60) 0, Op.tick]).1.state.startedAt = some 0 := by
  have hstart : initialTimer.start (1/60) 0 =
      ({ state := { isRunning := true, remainingSeconds := 1, totalSeconds := 1,
                    startedAt := some 0 }
         intervalId := some 0, onExpireCallbacks := [], sched := [0],
         nextId := 1 } : SleepTimer) := by
    rw [start_eq_none initialTimer rfl]
    norm_num [initialTimer]
  simp only [run, applyOp, hstart]
  decide

/-- Claim C1 (amended): for every state reachable from the initial idle
state via start (with positive minutes) / cancel / tick / expiry
operations, `0 ≤ remainingSeconds ≤ totalSeconds` holds and
`isRunning = false` implies `remainingSeconds = 0`; after a natural
expiry, however, `totalSeconds` and `startedAt` keep their pre-expiry
values until the next `start` or `cancel`, so the idle canonical form
(`totalSeconds = 0`, `startedAt` absent) is not part of the invariant. -/
theorem reachable_states_invariant (ops : List Op) (hpos : ∀ op ∈ ops, PosMinutes op) :
    Invariant (run initialTimer ops).1.state :=
  run_invariant ops initialTimer hpos (by decide)

/-- Witness for `reachable_states_invariant` at a concrete operation
sequence. -/
theorem reachable_states_invariant_witness :
    (∀ op ∈ [Op.start 5 0, Op.tick, Op.cancel], PosMinutes op)
    ∧ Invariant (run initialTimer [Op.start 5 0, Op.tick, Op.cancel]).1.state :=
  ⟨by decide, reachable_states_invariant _ (by decide)⟩

/-- Claim C2: when a running timer reaches `remainingSeconds ≤ 0` on a
tick, the expiry sequence runs in order — the state write
(`isRunning = false`, `remainingSeconds = 0`, marked `setIdle`), then the
registered callbacks in registration order, then `pauseMedia` exactly
once, then the 1-second settle delay, then `suspendSystem` exactly once,
with no retries — and any further ticks of that countdown produce no
further expiry. -/
theorem expiry_pipeline_once_ordered (t : SleepTimer) (h : t.state.isRunning = true)
    (h2 : t.state.remainingSeconds ≤ 1) :
    (t.tick).2 =
      Event.setIdle :: callbackTrace 0 t.onExpireCallbacks
        ++ [Event.pauseMedia, Event.settleDelay, Event.suspendSystem]
    ∧ (t.tick).2.count Event.pauseMedia = 1
    ∧ (t.tick).2.count Event.suspendSystem = 1
    ∧ (t.tick).1.state.isRunning = false
    ∧ (t.tick).1.state.remainingSeconds = 0
    ∧ (∀ n : ℕ, run (t.tick).1 (List.replicate n Op.tick) = ((t.tick).1, [])) := by
  have htr := tick_expiry_trace t h h2
  have hst := tick_expiry_state t h h2
  refine ⟨htr, ?_, ?_, by rw [hst], by rw [hst], ?_⟩
  · rw [htr]
    simp [List.count_cons, List.count_append, callbackTrace_count_pauseMedia]
  · rw [htr]
    simp [List.count_cons, List.count_append, callbackTrace_count_suspendSystem]
  · exact run_ticks_of_not_running _ (by rw [hst])

/-- Witness for `expiry_pipeline_once_ordered`: a running engine with one
second left and two registered callbacks. -/
theorem expiry_pipeline_once_ordered_witness :
    (SleepTimer.tick
        ⟨⟨true, 1, 300, some 5⟩, some 3, [false, true], [3], 4⟩).2 =
      Event.setIdle :: callbackTrace 0 [false, true]
        ++ [Event.pauseMedia, Event.settleDelay, Event.suspendSystem] :=
  (expiry_pipeline_once_ordered
    ⟨⟨true, 1, 300, some 5⟩, some 3, [false, true], [3], 4⟩ rfl (by decide)).1

/-- Claim C3: for positive minutes, `start` always succeeds and installs
the running state with `totalSeconds = remainingSeconds = ⌊minutes * 60⌋`
and `startedAt = now`; in particular `start(5)` gives 300 seconds. -/
theorem start_positive_semantics (t : SleepTimer) (m : ℚ) (now : ℤ) (_hm : 0 < m) :
    (t.start m now).state =
      { isRunning := true, remainingSeconds := ⌊m * 60⌋, totalSeconds := ⌊m * 60⌋,
        startedAt := some now }
    ∧ (t.start 5 now).state.totalSeconds = 300
    ∧ (t.start 5 now).state.remainingSeconds = 300 := by
  refine ⟨start_state t m now, ?_, ?_⟩ <;> rw [start_state] <;> norm_num

/-- Witness for `start_positive_semantics` at `minutes = 5`. -/
theorem start_positive_semantics_witness :
    (initialTimer.start 5 0).state.totalSeconds = 300
    ∧ (initialTimer.start 5 0).state.remainingSeconds = 300 :=
  ⟨(start_positive_semantics initialTimer 5 0 (by decide)).2.1,
   (start_positive_semantics initialTimer 5 0 (by decide)).2.2⟩

/-- Claim C4: `start(a)` then `start(b)` before any tick is equivalent to
a single `start(b)` — the second call fully replaces the countdown state
(`start(10)` then `start(5)` gives 300 seconds) and exactly one interval
source is live, because `start` clears any existing interval first. -/
theorem start_start_replacement (t : SleepTimer) (a b : ℚ) (t1 t2 : ℤ)
    (hwf : t.sched = t.intervalId.toList) :
    ((t.start a t1).start b t2).state = (t.start b t2).state
    ∧ ((t.start a t1).start b t2).sched.length = 1
    ∧ ((t.start 10 t1).start 5 t2).state.totalSeconds = 300 := by
  refine ⟨by rw [start_state, start_state], ?_, by rw [start_state]; norm_num⟩
  cases hI : t.intervalId with
  | none =>
      have hs : t.sched = [] := by rw [hwf, hI]; rfl
      rw [start_eq_none t hI a t1, start_eq_some _ t.nextId rfl b t2]
      simp [clearInterval, hs]
  | some id =>
      have hs : t.sched = [id] := by rw [hwf, hI]; rfl
      rw [start_eq_some t id hI a t1, start_eq_some _ t.nextId rfl b t2]
      simp [clearInterval, hs]

/-- Witness for `start_start_replacement`: `start(10)` then `start(5)`
from the initial engine. -/
theorem start_start_replacement_witness :
    ((initialTimer.start 10 0).start 5 7).state = (initialTimer.start 5 7).state
    ∧ ((initialTimer.start 10 0).start 5 7).sched.length = 1 :=
  ⟨(start_start_replacement initialTimer 10 5 0 7 rfl).1,
   (start_start_replacement initialTimer 10 5 0 7 rfl).2.1⟩

/-- Claim C5: during expiry every registered callback produces its event
(`callbackErr i` when it throws — caught and logged — `callbackOk i`
otherwise) whatever the other callbacks do, and the
pause / settle / suspend pipeline events are always present. -/
theorem expiry_callback_isolation (t : SleepTimer) (h : t.state.isRunning = true)
    (h2 : t.state.remainingSeconds ≤ 1) :
    (∀ i (hi : i < t.onExpireCallbacks.length),
        (if t.onExpireCallbacks.get ⟨i, hi⟩ = true then Event.callbackErr i
         else Event.callbackOk i) ∈ (t.tick).2)
    ∧ Event.pauseMedia ∈ (t.tick).2
    ∧ Event.settleDelay ∈ (t.tick).2
    ∧ Event.suspendSystem ∈ (t.tick).2 := by
  rw [tick_expiry_trace t h h2]
  refine ⟨?_, by simp, by simp, by simp⟩
  intro i hi
  have hmem := callbackTrace_mem t.onExpireCallbacks 0 i hi
  simp only [Nat.zero_add] at hmem
  exact List.mem_cons_of_mem _ (List.mem_append_left _ hmem)

/-- Witness for `expiry_callback_isolation`: both registered callbacks
throw, yet the first one runs and the pipeline proceeds. -/
theorem expiry_callback_isolation_witness :
    Event.callbackErr 0 ∈
      (SleepTimer.tick ⟨⟨true, 1, 60, some 0⟩, some 0, [true, true], [0], 1⟩).2
    ∧ Event.pauseMedia ∈
      (SleepTimer.tick ⟨⟨true, 1, 60, some 0⟩, some 0, [true, true], [0], 1⟩).2 :=
  ⟨(expiry_callback_isolation
      ⟨⟨true, 1, 60, some 0⟩, some 0, [true, true], [0], 1⟩ rfl (by decide)).1 0 (by decide),
   (expiry_callback_isolation
      ⟨⟨true, 1, 60, some 0⟩, some 0, [true, true], [0], 1⟩ rfl (by decide)).2.1⟩

/-- Claim C6: `cancel` always succeeds, returns the canonical idle state,
is idempotent (also when already idle), and emits no collaborator
events. -/
theorem cancel_idempotent_idle (t : SleepTimer) :
    t.cancel.state =
      { isRunning := false, remainingSeconds := 0, totalSeconds := 0, startedAt := none }
    ∧ t.cancel.cancel = t.cancel
    ∧ (run t [Op.cancel]).2 = []
    ∧ initialTimer.cancel = initialTimer := by
  refine ⟨cancel_state t, ?_, by simp [run, applyOp], rfl⟩
  cases hI : t.intervalId with
  | none => simp [SleepTimer.cancel, hI]
  | some id => simp [SleepTimer.cancel, hI]

/-- Claim C7: a tick of a running timer decrements `remainingSeconds` by
one, expiring exactly when the decremented value is `≤ 0` (the expiry
write then pins it at 0); after `start(1)` and 10 ticks, 50 seconds
remain. -/
theorem tick_decrements_and_triggers (t : SleepTimer) (h : t.state.isRunning = true) :
    (1 < t.state.remainingSeconds →
        t.tick =
          ({ t with state :=
              { t.state with remainingSeconds := t.state.remainingSeconds - 1 } }, []))
    ∧ (t.state.remainingSeconds ≤ 1 →
        (t.tick).1.state.remainingSeconds = 0 ∧ (t.tick).2 ≠ [])
    ∧ (run (initialTimer.start 1 0) (List.replicate 10 Op.tick)).1.state.remainingSeconds
        = 50 := by
  refine ⟨fun h2 => tick_no_expiry t h h2, fun h2 => ⟨by rw [tick_expiry_state t h h2], ?_⟩, ?_⟩
  · rw [tick_expiry_trace t h h2]
    simp
  · have hstart : initialTimer.start 1 0 =
        ({ state := { isRunning := true, remainingSeconds := 60, totalSeconds := 60,
                      startedAt := some 0 }
           intervalId := some 0, onExpireCallbacks := [], sched := [0],
           nextId := 1 } : SleepTimer) := by
      rw [start_eq_none initialTimer rfl]
      norm_num [initialTimer]
    rw [hstart]
    decide

/-- Witness for `tick_decrements_and_triggers`: a running engine with 7
seconds left ticks down to 6, and the concrete `start(1)`-plus-10-ticks
run reaches 50. -/
theorem tick_decrements_and_triggers_witness :
    (run (initialTimer.start 1 0) (List.replicate 10 Op.tick)).1.state.remainingSeconds
      = 50 :=
  (tick_decrements_and_triggers ⟨⟨true, 7, 60, some 0⟩, some 0, [], [0], 1⟩ rfl).2.2

/-- Claim C8: `start` performs no range validation — for `minutes ≤ 0` it
still completes, sets `isRunning = true` and computes
`totalSeconds = ⌊minutes * 60⌋`, which is then 0 or negative. -/
theorem start_nonpositive_accepted (t : SleepTimer) (m : ℚ) (now : ℤ) (hm : m ≤ 0) :
    (t.start m now).state.isRunning = true
    ∧ (t.start m now).state.totalSeconds = ⌊m * 60⌋
    ∧ ⌊m * 60⌋ ≤ 0 := by
  refine ⟨by rw [start_state], by rw [start_state], ?_⟩
  have h60 : m * 60 ≤ 0 := by nlinarith
  calc ⌊m * 60⌋ ≤ ⌊(0 : ℚ)⌋ := Int.floor_mono h60
    _ = 0 := Int.floor_zero

/-- Witness for `start_nonpositive_accepted` at `minutes = 0`. -/
theorem start_nonpositive_accepted_witness :
    (initialTimer.start 0 0).state.isRunning = true ∧ ⌊(0 : ℚ) * 60⌋ ≤ 0 :=
  ⟨(start_nonpositive_accepted initialTimer 0 0 (by decide)).1,
   (start_nonpositive_accepted initialTimer 0 0 (by decide)).2.2⟩

/-- Claim C9: a tick delivered while `isRunning = false` is a complete
no-op — same engine, no events, no expiry — so a stale tick after
`cancel()` leaves the idle state unchanged. -/
theorem tick_when_idle_noop (t : SleepTimer) (h : t.state.isRunning = false) :
    t.tick = (t, []) ∧ t.cancel.tick = (t.cancel, []) :=
  ⟨tick_not_running t h, tick_not_running _ (by rw [cancel_state])⟩

/-- Witness for `tick_when_idle_noop` at the initial idle engine. -/
theorem tick_when_idle_noop_witness : initialTimer.tick = (initialTimer, []) :=
  (tick_when_idle_noop initialTimer rfl).1

/-- Claim C10: the expiry sequence writes only `isRunning` and
`remainingSeconds` — `totalSeconds` and `startedAt` keep their pre-expiry
values, none of the pipeline steps after the single state write modifies
the engine, and the values persist under any further ticks or callback
registrations (i.e. until the next `start` or `cancel`). -/
theorem expiry_writes_only_run_fields (t : SleepTimer) (h : t.state.isRunning = true)
    (h2 : t.state.remainingSeconds ≤ 1) :
    (t.tick).1.state.totalSeconds = t.state.totalSeconds
    ∧ (t.tick).1.state.startedAt = t.state.startedAt
    ∧ (∀ u : SleepTimer, (runSteps u pipelineSteps).1 = u)
    ∧ (∀ ops : List Op, (∀ op ∈ ops, op = Op.tick ∨ ∃ b, op = Op.onExpire b) →
        (run (t.tick).1 ops).1.state = (t.tick).1.state) := by
  have hst := tick_expiry_state t h h2
  refine ⟨by rw [hst], by rw [hst], runSteps_pipeline_fst, ?_⟩
  intro ops hops
  exact run_no_start_cancel ops hops (t.tick).1 (by rw [hst])

/-- Witness for `expiry_writes_only_run_fields`: a natural expiry keeps
`totalSeconds` and `startedAt` intact. -/
theorem expiry_writes_only_run_fields_witness :
    (SleepTimer.tick ⟨⟨true, 1, 1, some 5⟩, some 0, [], [0], 1⟩).1.state.totalSeconds
        = (⟨⟨true, 1, 1, some 5⟩, some 0, [], [0], 1⟩ : SleepTimer).state.totalSeconds
    ∧ (SleepTimer.tick ⟨⟨true, 1, 1, some 5⟩, some 0, [], [0], 1⟩).1.state.startedAt
        = (⟨⟨true, 1, 1, some 5⟩, some 0, [], [0], 1⟩ : SleepTimer).state.startedAt :=
  ⟨(expiry_writes_only_run_fields
      ⟨⟨true, 1, 1, some 5⟩, some 0, [], [0], 1⟩ rfl (by decide)).1,
   (expiry_writes_only_run_fields
      ⟨⟨true, 1, 1, some 5⟩, some 0, [], [0], 1⟩ rfl (by decide)).2.1⟩

end Eepy
